import Mathlib

/-!
# LDAP client session layer (`conn.go`, `bind.go`)

A shallow embedding of the connection object, its message-id counter, the
`send`/`read` exchange, `Bind`, `startTLS`, `Close` and the three dial entry
points.  Go pointer-receiver mutation becomes explicit state passing: every
operation takes the `Conn` and the outside `World` and returns the updated
pair together with an `Outcome`.

The transport (`net.Conn`), the BER library (`ber.*`) and the helpers of the
package that live in other files are parameters collected in `Env`.  The
answers of the transport may depend on the whole history of transport calls,
so any deterministic peer can be expressed.
-/

namespace Ldap

/-! ## Go values -/

/-- A value of the Go interface type `error`.  `nil` is the nil interface.
`typedNil` is the interface value that holds a nil `*Error` pointer: it has
a dynamic type, so it compares unequal to `nil`.  `ldap code cause` holds a
non-nil `*Error`. -/
inductive GoError where
  | nil : GoError
  | text (msg : String) : GoError
  | typedNil : GoError
  | ldap (code : Nat) (cause : GoError) : GoError
  deriving DecidableEq, Repr

/-- The package's `Error` struct: a numeric result code and its cause. -/
structure Error where
  ResultCode : Nat
  Err : GoError
  deriving DecidableEq, Repr

/-- Modelled from the spec: `NewError` is declared outside the given sources;
the spec describes it as a pure mapping from (kind-or-code, underlying cause)
to the error value. -/
def NewError (code : Nat) (cause : GoError) : Error :=
  { ResultCode := code, Err := cause }

/-- Conversion of a `*Error` (here `Option Error`) to the interface type
`error`, as performed by an assignment `err = f()` where `err` has static
type `error`.  A nil pointer becomes a non-nil interface value. -/
def toErrorInterface : Option Error → GoError
  | none => GoError.typedNil
  | some e => GoError.ldap e.ResultCode e.Err

/-- The Go test `err != nil` on a value of interface type `error`. -/
def GoError.isNil : GoError → Bool
  | GoError.nil => true
  | _ => false

/-- How a call ends: it returns a value, it panics (failed type assertion,
index or slice out of range, nil dereference), or the model ran out of fuel
inside the `send` loop. -/
inductive Outcome (α : Type) where
  | returned (a : α) : Outcome α
  | panicked : Outcome α
  | outOfFuel : Outcome α
  deriving DecidableEq, Repr

/-! ## BER packets (interface of the wire codec) -/

/-- The dynamically typed `Value` field of a packet. -/
inductive BerValue where
  | nil : BerValue
  | uint64 (n : Nat) : BerValue
  | str (s : String) : BerValue
  | bool (b : Bool) : BerValue
  deriving DecidableEq, Repr

/-- A `ber.Packet`: class, primitive/constructed flag, tag, value, children
and description.  The byte buffer of the library is not part of the tree; the
serialisation is the parameter `Env.Bytes`. -/
inductive Packet where
  | mk (ClassType TagType Tag : Nat) (Value : BerValue)
      (Children : List Packet) (Description : String) : Packet
  deriving Repr

namespace Packet

def ClassType : Packet → Nat
  | mk c _ _ _ _ _ => c

def TagType : Packet → Nat
  | mk _ t _ _ _ _ => t

def Tag : Packet → Nat
  | mk _ _ t _ _ _ => t

def Value : Packet → BerValue
  | mk _ _ _ v _ _ => v

def Children : Packet → List Packet
  | mk _ _ _ _ cs _ => cs

def Description : Packet → String
  | mk _ _ _ _ _ d => d

/-- `p.AppendChild(child)`: the child is added at the end. -/
def AppendChild : Packet → Packet → Packet
  | mk c t g v cs d, child => mk c t g v (cs ++ [child]) d

end Packet

/-! Identifier constants of the BER library, with their standard values. -/

def ClassUniversal : Nat := 0
def ClassApplication : Nat := 64
def ClassContext : Nat := 128
def TypePrimative : Nat := 0
def TypeConstructed : Nat := 32
def TagInteger : Nat := 2
def TagOctetString : Nat := 4
def TagSequence : Nat := 16

/-- Modelled from the spec: the constant is declared outside the given
sources; its value is the protocol's operation code of BindRequest. -/
def ApplicationBindRequest : Nat := 0

/-- Modelled from the spec: the constant is declared outside the given
sources; its value is the protocol's operation code of ExtendedRequest. -/
def ApplicationExtendedRequest : Nat := 23

/-- `ber.Encode(class, type, tag, nil, description)`: a node without value
and without children. -/
def Encode (cls typ tag : Nat) (description : String) : Packet :=
  Packet.mk cls typ tag BerValue.nil [] description

/-- `ber.NewInteger(class, type, tag, value, description)`. -/
def NewInteger (cls typ tag : Nat) (value : Nat) (description : String) : Packet :=
  Packet.mk cls typ tag (BerValue.uint64 value) [] description

/-- `ber.NewString(class, type, tag, value, description)`. -/
def NewString (cls typ tag : Nat) (value : String) (description : String) : Packet :=
  Packet.mk cls typ tag (BerValue.str value) [] description

/-! ## Transport and world -/

/-- A `net.Conn` handle: a socket from `net.Dial`, a TLS connection from
`tls.Dial`, or the wrapper `tls.Client(c, nil)` over another handle. -/
inductive NetConn where
  | tcp (network addr : String) : NetConn
  | tlsDial (network addr : String) : NetConn
  | tlsClient (under : NetConn) : NetConn
  deriving DecidableEq, Repr

/-- One call made on the transport. -/
inductive NetEvent where
  | dial (network addr : String) : NetEvent
  | write (c : NetConn) (buf : List Nat) (n : Int) (err : GoError) : NetEvent
  | readPacket (c : NetConn) : NetEvent
  | close (c : NetConn) : NetEvent
  deriving DecidableEq, Repr

/-- What the process prints on standard output. -/
inductive Printed where
  | packet (p : Option Packet) : Printed
  | sendError (err : GoError) : Printed
  deriving Repr

/-- Everything outside the `Conn` struct: the transport calls made so far, in
order, and the lines printed. -/
structure World where
  net : List NetEvent
  stdout : List Printed
  deriving Repr

/-- The collaborators of the session layer.  `Write`, `ReadPacket` and the
dial functions answer as a function of the calls made so far. -/
structure Env where
  ErrorNetwork : Nat
  ErrorDebugging : Nat
  Bytes : Packet → List Nat
  netDial : List NetEvent → String → String → GoError
  tlsDial : List NetEvent → String → String → GoError
  Write : List NetEvent → NetConn → List Nat → Int × GoError
  ReadPacket : List NetEvent → NetConn → Option Packet × GoError
  addLDAPDescriptions : Option Packet → Option Packet × GoError
  getLDAPResultCode : Packet → Nat × String

/-! ## The connection -/

/-- The `Conn` struct of `conn.go`. -/
structure Conn where
  isClosed : Bool
  next_message_id : Nat
  conn : NetConn
  isSSL : Bool
  Debug : Bool
  deriving DecidableEq, Repr

/-- The result of running an operation on a connection. -/
structure Ran (α : Type) where
  l : Conn
  w : World
  out : Outcome α

/-- `newConn`: the counter has Go's zero value. -/
def newConn (conn : NetConn) : Conn :=
  { isClosed := false, next_message_id := 0, conn := conn, isSSL := false, Debug := false }

/-- `Conn.Close`. -/
def Close (l : Conn) (w : World) : Conn × World :=
  if !l.isClosed then
    ({ l with isClosed := true }, { w with net := w.net ++ [NetEvent.close l.conn] })
  else
    (l, w)

/-- `Conn.nextMessageID`: increment of a `uint64`, then the new value. -/
def nextMessageID (l : Conn) : Conn × Nat :=
  let l1 := { l with next_message_id := (l.next_message_id + 1) % 2 ^ 64 }
  (l1, l1.next_message_id)

/-- One call `l.conn.Write(buf)`: the transport answers and the call is recorded. -/
def connWrite (env : Env) (c : NetConn) (w : World) (buf : List Nat) : World × Int × GoError :=
  let r := env.Write w.net c buf
  ({ w with net := w.net ++ [NetEvent.write c buf r.1 r.2] }, r.1, r.2)

/-- One call `ber.ReadPacket(l.conn)`. -/
def connReadPacket (env : Env) (c : NetConn) (w : World) : World × Option Packet × GoError :=
  let r := env.ReadPacket w.net c
  ({ w with net := w.net ++ [NetEvent.readPacket c] }, r.1, r.2)

/-- `ber.PrintPacket(p)`. -/
def PrintPacket (w : World) (p : Option Packet) : World :=
  { w with stdout := w.stdout ++ [Printed.packet p] }

/-- The loop of `Conn.send` on the remaining buffer; one unit of fuel per
iteration.  `buf[n:]` panics when `n` is negative or exceeds `len(buf)`. -/
def sendLoop (env : Env) (l : Conn) : Nat → World → List Nat → World × Outcome GoError
  | fuel, w, buf =>
    if buf.length > 0 then
      match fuel with
      | 0 => (w, Outcome.outOfFuel)
      | fuel + 1 =>
        let r := connWrite env l.conn w buf
        if !r.2.2.isNil then
          let w1 := if l.Debug then
              { r.1 with stdout := r.1.stdout ++ [Printed.sendError r.2.2] }
            else r.1
          (w1, Outcome.returned r.2.2)
        else if r.2.1 = (buf.length : Int) then
          (r.1, Outcome.returned GoError.nil)
        else if r.2.1 < 0 ∨ (buf.length : Int) < r.2.1 then
          (r.1, Outcome.panicked)
        else
          sendLoop env l fuel r.1 (buf.drop r.2.1.toNat)
    else
      (w, Outcome.returned GoError.nil)

/-- `Conn.send`. -/
def send (env : Env) (fuel : Nat) (l : Conn) (w : World) (message : Packet) :
    World × Outcome GoError :=
  sendLoop env l fuel w (env.Bytes message)

/-- The expression `p.Children[i]` on a possibly nil `*ber.Packet`. -/
def childAt (p : Option Packet) (i : Nat) : Option Packet :=
  match p with
  | none => none
  | some q => q.Children.get? i

/-- The expression `p.Value.(uint64)` on the result of an index expression;
`none` stands for a panic. -/
def valueUint64 (p : Option Packet) : Option Nat :=
  match p with
  | none => none
  | some q =>
    match q.Value with
    | BerValue.uint64 n => some n
    | _ => none

/-- `Conn.read`. -/
def read (env : Env) (l : Conn) (w : World) : World × Outcome (Nat × Option Packet × GoError) :=
  let r := connReadPacket env l.conn w
  if !r.2.2.isNil then
    (r.1, Outcome.returned (0, r.2.1, r.2.2))
  else
    match valueUint64 (childAt r.2.1 0) with
    | none => (r.1, Outcome.panicked)
    | some id => (r.1, Outcome.returned (id, r.2.1, GoError.nil))

/-- Lines 17 to 23 of `bind.go`: the request envelope for a message id. -/
def bindRequestPacket (request_id : Nat) (username password : String) : Packet :=
  let request_packet := Encode ClassUniversal TypeConstructed TagSequence "LDAP Request"
  let request_packet := request_packet.AppendChild
    (NewInteger ClassUniversal TypePrimative TagInteger request_id "MessageID")
  let bindRequest := Encode ClassApplication TypeConstructed ApplicationBindRequest "Bind Request"
  let bindRequest := bindRequest.AppendChild
    (NewInteger ClassUniversal TypePrimative TagInteger 3 "Version")
  let bindRequest := bindRequest.AppendChild
    (NewString ClassUniversal TypePrimative TagOctetString username "User Name")
  let bindRequest := bindRequest.AppendChild
    (NewString ClassContext TypePrimative 0 password "Password")
  request_packet.AppendChild bindRequest

/-- The result of a `Bind` call, with the request packet it handed to `send`. -/
structure BindRun where
  l : Conn
  w : World
  request : Packet
  out : Outcome (Option Error)

/-- `Conn.Bind`. -/
def Bind (env : Env) (fuel : Nat) (l : Conn) (w : World) (username password : String) :
    BindRun :=
  let ids := nextMessageID l
  let l := ids.1
  let request_id := ids.2
  let request_packet := bindRequestPacket request_id username password
  let w := if l.Debug then PrintPacket w (some request_packet) else w
  match send env fuel l w request_packet with
  | (w, Outcome.outOfFuel) => ⟨l, w, request_packet, Outcome.outOfFuel⟩
  | (w, Outcome.panicked) => ⟨l, w, request_packet, Outcome.panicked⟩
  | (w, Outcome.returned err) =>
    if !err.isNil then
      ⟨l, w, request_packet, Outcome.returned (some (NewError env.ErrorNetwork err))⟩
    else
      match read env l w with
      | (w, Outcome.outOfFuel) => ⟨l, w, request_packet, Outcome.outOfFuel⟩
      | (w, Outcome.panicked) => ⟨l, w, request_packet, Outcome.panicked⟩
      | (w, Outcome.returned (response_id, response_body, err)) =>
        if !err.isNil then
          ⟨l, w, request_packet, Outcome.returned (some (NewError env.ErrorNetwork err))⟩
        else if request_id ≠ response_id then
          ⟨l, w, request_packet, Outcome.returned (some (NewError env.ErrorNetwork
            (GoError.text "message id is not excepted.")))⟩
        else
          let dbg : Option (World × Option Packet) :=
            if l.Debug then
              let d := env.addLDAPDescriptions response_body
              if !d.2.isNil then none else some (PrintPacket w d.1, d.1)
            else some (w, response_body)
          match dbg with
          | none =>
            ⟨l, w, request_packet, Outcome.returned (some (NewError env.ErrorDebugging
              (env.addLDAPDescriptions response_body).2))⟩
          -- a nil packet cannot reach this point after a successful `read`
          | some (w, none) => ⟨l, w, request_packet, Outcome.panicked⟩
          | some (w, some body) =>
            let res := env.getLDAPResultCode body
            if res.1 ≠ 0 then
              ⟨l, w, request_packet,
                Outcome.returned (some (NewError res.1 (GoError.text res.2)))⟩
            else
              ⟨l, w, request_packet, Outcome.returned none⟩

/-- Lines 96 to 100 of `conn.go`: the StartTLS request envelope. -/
def startTLSRequestPacket (request_id : Nat) : Packet :=
  let request_packet := Encode ClassUniversal TypeConstructed TagSequence "LDAP Request"
  let request_packet := request_packet.AppendChild
    (NewInteger ClassUniversal TypePrimative TagInteger request_id "MessageID")
  let startTLS := Encode ClassApplication TypeConstructed ApplicationExtendedRequest "Start TLS"
  let startTLS := startTLS.AppendChild
    (NewString ClassContext TypePrimative 0 "1.3.6.1.4.1.1466.20037" "TLS Extended Command")
  request_packet.AppendChild startTLS

/-- The expression `response_packet.Children[1].Children[0].Value.(uint64)`;
`none` stands for a panic. -/
def extendedResultCode (response_packet : Option Packet) : Option Nat :=
  valueUint64 (childAt (childAt response_packet 1) 0)

/-- `Conn.startTLS`.  The request is handed to a single `Write` whose count is
discarded; `tls.Client` only builds the wrapper. -/
def startTLS (env : Env) (l : Conn) (w : World) : Ran (Option Error) :=
  let ids := nextMessageID l
  let l := ids.1
  let request_id := ids.2
  if l.isSSL then
    ⟨l, w, Outcome.returned (some (NewError env.ErrorNetwork (GoError.text "Already encrypted")))⟩
  else
    let request_packet := startTLSRequestPacket request_id
    let w := if l.Debug then PrintPacket w (some request_packet) else w
    let wr := connWrite env l.conn w (env.Bytes request_packet)
    let w := wr.1
    if !wr.2.2.isNil then
      ⟨l, w, Outcome.returned (some (NewError env.ErrorNetwork wr.2.2))⟩
    else
      let rd := connReadPacket env l.conn w
      let w := rd.1
      if !rd.2.2.isNil then
        ⟨l, w, Outcome.returned (some (NewError env.ErrorNetwork rd.2.2))⟩
      else
        let dbg : Option (World × Option Packet) :=
          if l.Debug then
            let d := env.addLDAPDescriptions rd.2.1
            if !d.2.isNil then none else some (PrintPacket w d.1, d.1)
          else some (w, rd.2.1)
        match dbg with
        | none =>
          ⟨l, w, Outcome.returned (some (NewError env.ErrorDebugging
            (env.addLDAPDescriptions rd.2.1).2))⟩
        | some (w, response_packet) =>
          match extendedResultCode response_packet with
          | none => ⟨l, w, Outcome.panicked⟩
          | some code =>
            if code = 0 then
              ⟨{ l with isSSL := true, conn := NetConn.tlsClient l.conn }, w,
                Outcome.returned none⟩
            else
              ⟨l, w, Outcome.returned none⟩

/-- The result of a dial entry point: the world afterwards, the connection
object the function built (if it got that far) and what it returned. -/
structure DialRun where
  w : World
  built : Option Conn
  out : Outcome (Option Conn × Option Error)

/-- `Dial`. -/
def Dial (env : Env) (w : World) (network addr : String) : DialRun :=
  let err := env.netDial w.net network addr
  let w := { w with net := w.net ++ [NetEvent.dial network addr] }
  if !err.isNil then
    ⟨w, none, Outcome.returned (none, some (NewError env.ErrorNetwork err))⟩
  else
    let conn := newConn (NetConn.tcp network addr)
    ⟨w, some conn, Outcome.returned (some conn, none)⟩

/-- `DialSSL`. -/
def DialSSL (env : Env) (w : World) (network addr : String) : DialRun :=
  let err := env.tlsDial w.net network addr
  let w := { w with net := w.net ++ [NetEvent.dial network addr] }
  if !err.isNil then
    ⟨w, none, Outcome.returned (none, some (NewError env.ErrorNetwork err))⟩
  else
    let conn := { newConn (NetConn.tlsDial network addr) with isSSL := true }
    ⟨w, some conn, Outcome.returned (some conn, none)⟩

/-- `DialTLS`.  The variable `err` is declared by `c, err := net.Dial(...)`
and has the interface type `error`; `err = conn.startTLS()` stores the
returned `*Error` in it, and the test `err != nil` is made on the interface
value. -/
def DialTLS (env : Env) (w : World) (network addr : String) : DialRun :=
  let err := env.netDial w.net network addr
  let w := { w with net := w.net ++ [NetEvent.dial network addr] }
  if !err.isNil then
    ⟨w, none, Outcome.returned (none, some (NewError env.ErrorNetwork err))⟩
  else
    let conn := newConn (NetConn.tcp network addr)
    let r := startTLS env conn w
    match r.out with
    | Outcome.panicked => ⟨r.w, some r.l, Outcome.panicked⟩
    | Outcome.outOfFuel => ⟨r.w, some r.l, Outcome.outOfFuel⟩
    | Outcome.returned e =>
      let err := toErrorInterface e
      if !err.isNil then
        let c := Close r.l r.w
        ⟨c.2, some c.1, Outcome.returned (none, some (NewError env.ErrorNetwork err))⟩
      else
        ⟨r.w, some r.l, Outcome.returned (some r.l, none)⟩

/-! ## Observations used in the statements -/

/-- The `MessageID` child of a request envelope: its first child. -/
def messageIdChild (request : Packet) : Option Packet :=
  request.Children.get? 0

/-- The `MessageID` node built for an id. -/
def messageIdNode (id : Nat) : Packet :=
  NewInteger ClassUniversal TypePrimative TagInteger id "MessageID"

/-- Serial `Bind` calls on one connection, one per credential pair, each
started in the state the previous one left, whatever its outcome (an error,
a recovered panic, or a run cut short by the fuel); the request packets in
call order. -/
def serialBinds (env : Env) (fuel : Nat) : Conn → World → List (String × String) → List Packet
  | _, _, [] => []
  | l, w, cred :: rest =>
    let r := Bind env fuel l w cred.1 cred.2
    r.request :: serialBinds env fuel r.l r.w rest

/-- The bytes the transport accepted, in call order: the first `n` bytes of
every buffer offered to `Write`. -/
def accepted : List NetEvent → List Nat
  | [] => []
  | NetEvent.write _ buf n _ :: rest => buf.take n.toNat ++ accepted rest
  | _ :: rest => accepted rest

/-- A run of transport calls that flushes `pending` on handle `c`: only
`Write` calls without error, each offered exactly the bytes not yet accepted
and accepting between one and all of them. -/
def flushes (c : NetConn) : List Nat → List NetEvent → Prop
  | pending, [] => pending = []
  | pending, NetEvent.write c1 buf n err :: rest =>
    c1 = c ∧ buf = pending ∧ err = GoError.nil ∧ 1 ≤ n ∧ n ≤ (buf.length : Int) ∧
      flushes c (pending.drop n.toNat) rest
  | _, _ :: _ => False

/-- Number of calls of the transport's `Close` in a trace. -/
def closeCount : List NetEvent → Nat
  | [] => 0
  | NetEvent.close _ :: rest => closeCount rest + 1
  | _ :: rest => closeCount rest

/-- `k` calls of `Close` in a row. -/
def closeTimes : Nat → Conn → World → Conn × World
  | 0, l, w => (l, w)
  | k + 1, l, w => closeTimes k (Close l w).1 (Close l w).2

/-! ## Concrete collaborators for the examples -/

/-- The world before any call. -/
def emptyWorld : World := { net := [], stdout := [] }

/-- A fresh plain connection to a test server. -/
def plainConn : Conn := newConn (NetConn.tcp "tcp" "192.168.1.141:10389")

/-- A response envelope: message id, then an application node holding the
result code, the matched DN and the diagnostic text. -/
def responsePacket (id code : Nat) (diag : String) : Packet :=
  Packet.mk ClassUniversal TypeConstructed TagSequence BerValue.nil
    [ NewInteger ClassUniversal TypePrimative TagInteger id "",
      Packet.mk ClassApplication TypeConstructed 1 BerValue.nil
        [ NewInteger ClassUniversal TypePrimative 10 code "",
          NewString ClassUniversal TypePrimative TagOctetString "" "",
          NewString ClassUniversal TypePrimative TagOctetString diag "" ] "" ] ""

/-- A result-code reader for the examples: code and diagnostic text of the
second child, with a fixed answer for any other shape. -/
def readResultCode (p : Packet) : Nat × String :=
  match p.Children with
  | [_, body] =>
    match body.Children with
    | [c, _, d] =>
      match c.Value, d.Value with
      | BerValue.uint64 n, BerValue.str t => (n, t)
      | _, _ => (200, "Invalid packet format")
    | _ => (200, "Invalid packet format")
  | _ => (200, "Invalid packet format")

/-- A peer that accepts at most `chunk` bytes per `Write` and answers every
read with the response `(id, code, diag)`. -/
def scriptedEnv (chunk : Nat) (id code : Nat) (diag : String) : Env :=
  { ErrorNetwork := 200
    ErrorDebugging := 203
    Bytes := fun p => [48, 12, 2, 1, p.Children.length]
    netDial := fun _ _ _ => GoError.nil
    tlsDial := fun _ _ _ => GoError.nil
    Write := fun _ _ buf => ((min chunk buf.length : Nat), GoError.nil)
    ReadPacket := fun _ _ => (some (responsePacket id code diag), GoError.nil)
    addLDAPDescriptions := fun p => (p, GoError.nil)
    getLDAPResultCode := readResultCode }

/-! ## Basic facts -/

theorem nextMessageID_conn (l : Conn) : (nextMessageID l).1.conn = l.conn := rfl

theorem nextMessageID_isSSL (l : Conn) : (nextMessageID l).1.isSSL = l.isSSL := rfl

theorem nextMessageID_Debug (l : Conn) : (nextMessageID l).1.Debug = l.Debug := rfl

theorem nextMessageID_isClosed (l : Conn) : (nextMessageID l).1.isClosed = l.isClosed := rfl

theorem nextMessageID_counter (l : Conn) :
    (nextMessageID l).1.next_message_id = (nextMessageID l).2 := rfl

/-- Below the top of the `uint64` range the counter grows by exactly one and
the new value is returned. -/
theorem nextMessageID_succ (l : Conn) (h : l.next_message_id + 1 < 2 ^ 64) :
    (nextMessageID l).2 = l.next_message_id + 1 := by
  simp only [nextMessageID]
  exact Nat.mod_eq_of_lt h

/-- The request of a `Bind` call is the envelope built for the id that
`nextMessageID` returned, whatever happens afterwards. -/
theorem Bind_request (env : Env) (fuel : Nat) (l : Conn) (w : World) (username password : String) :
    (Bind env fuel l w username password).request
      = bindRequestPacket (nextMessageID l).2 username password := by
  unfold Bind
  simp only
  repeat' split
  all_goals rfl

/-- The connection after a `Bind` call differs from the one before only in
the counter. -/
theorem Bind_conn (env : Env) (fuel : Nat) (l : Conn) (w : World) (username password : String) :
    (Bind env fuel l w username password).l = (nextMessageID l).1 := by
  unfold Bind
  simp only
  repeat' split
  all_goals rfl

/-! ## C1: message ids of serial Bind calls -/

theorem messageIdChild_bindRequestPacket (id : Nat) (username password : String) :
    messageIdChild (bindRequestPacket id username password) = some (messageIdNode id) := rfl

/-- Serial binds started at any counter value number their requests
consecutively, as long as the counter stays inside the `uint64` range. -/
theorem serialBinds_ids_from (env : Env) (fuel : Nat) :
    ∀ (creds : List (String × String)) (l : Conn) (w : World),
      l.next_message_id + creds.length < 2 ^ 64 →
      (serialBinds env fuel l w creds).map messageIdChild
        = (List.range' (l.next_message_id + 1) creds.length).map
            (fun i => some (messageIdNode i)) := by
  intro creds
  induction creds with
  | nil => intro l w _; rfl
  | cons cred rest ih =>
    intro l w h
    have hlen : (cred :: rest).length = rest.length + 1 := rfl
    have h1 : l.next_message_id + 1 < 2 ^ 64 := by omega
    have hid : (nextMessageID l).2 = l.next_message_id + 1 := nextMessageID_succ l h1
    have hcnt : (Bind env fuel l w cred.1 cred.2).l.next_message_id = l.next_message_id + 1 := by
      rw [Bind_conn, nextMessageID_counter, hid]
    have hrest := ih (Bind env fuel l w cred.1 cred.2).l (Bind env fuel l w cred.1 cred.2).w
      (by rw [hcnt]; omega)
    simp only [serialBinds, List.map_cons, hlen, List.range'_succ]
    rw [hrest, hcnt, Bind_request, messageIdChild_bindRequestPacket, hid]

/-- C1: on a connection whose counter is 0, `N` serial `Bind` calls
(`1 ≤ N < 2^64`) put the ids 1, 2, ..., N, in that order, in the MessageID
child of their request envelopes, for every behaviour of the peer, every fuel
and every Debug setting; and below the top of the range `nextMessageID` adds
exactly one to the counter and returns the new value. -/
theorem serialBinds_message_ids (env : Env) (fuel : Nat) (l : Conn) (w : World)
    (creds : List (String × String))
    (hfresh : l.next_message_id = 0) (hpos : 1 ≤ creds.length)
    (hlt : creds.length < 2 ^ 64) :
    (serialBinds env fuel l w creds).map messageIdChild
        = (List.range' 1 creds.length).map (fun i => some (messageIdNode i))
      ∧ ∀ l1 : Conn, l1.next_message_id + 1 < 2 ^ 64 →
          nextMessageID l1
            = ({ l1 with next_message_id := l1.next_message_id + 1 }, l1.next_message_id + 1) := by
  refine ⟨?_, ?_⟩
  · have h := serialBinds_ids_from env fuel creds l w (by rw [hfresh]; omega)
    rw [hfresh] at h
    exact h
  · intro l1 h1
    have hmod : (l1.next_message_id + 1) % 2 ^ 64 = l1.next_message_id + 1 :=
      Nat.mod_eq_of_lt h1
    simp only [nextMessageID, hmod]

/-- C1 at three binds against a peer that rejects the second and third
(response id 1 only matches the first request). -/
theorem serialBinds_message_ids_witness :
    plainConn.next_message_id = 0 ∧
    (serialBinds (scriptedEnv 9 1 0 "") 4 plainConn emptyWorld
        [("a", "x"), ("b", "y"), ("c", "z")]).map messageIdChild
      = [some (messageIdNode 1), some (messageIdNode 2), some (messageIdNode 3)] :=
  ⟨rfl, (serialBinds_message_ids (scriptedEnv 9 1 0 "") 4 plainConn emptyWorld
    [("a", "x"), ("b", "y"), ("c", "z")] rfl (by decide) (by decide)).1⟩

/-! ## C8: shape of the Bind request -/

/-- C8: the request packet `Bind` hands to `send` is a universal constructed
SEQUENCE with exactly two children: the universal primitive INTEGER holding
the id just returned by `nextMessageID`, and an application constructed node
tagged `ApplicationBindRequest` whose three children are, in order, universal
INTEGER 3, universal OCTET STRING username and context tag 0 primitive string
password. -/
theorem Bind_request_shape (env : Env) (fuel : Nat) (l : Conn) (w : World)
    (username password : String) :
    (Bind env fuel l w username password).request
      = Packet.mk ClassUniversal TypeConstructed TagSequence BerValue.nil
          [ Packet.mk ClassUniversal TypePrimative TagInteger
              (BerValue.uint64 (nextMessageID l).2) [] "MessageID",
            Packet.mk ClassApplication TypeConstructed ApplicationBindRequest BerValue.nil
              [ Packet.mk ClassUniversal TypePrimative TagInteger (BerValue.uint64 3) [] "Version",
                Packet.mk ClassUniversal TypePrimative TagOctetString (BerValue.str username) []
                  "User Name",
                Packet.mk ClassContext TypePrimative 0 (BerValue.str password) [] "Password" ]
              "Bind Request" ]
          "LDAP Request" := by
  rw [Bind_request]
  rfl

/-! ## C4: startTLS on an encrypted connection -/

/-- C4: on a connection whose `isSSL` flag is set, `startTLS` returns an
`Error` of kind `ErrorNetwork`, makes no transport call and prints nothing
(the world is unchanged), and leaves the transport handle and the flag as
they were. -/
theorem startTLS_already_encrypted (env : Env) (l : Conn) (w : World)
    (hssl : l.isSSL = true) :
    (startTLS env l w).out
        = Outcome.returned (some (NewError env.ErrorNetwork (GoError.text "Already encrypted")))
      ∧ (startTLS env l w).w = w
      ∧ (startTLS env l w).l.conn = l.conn
      ∧ (startTLS env l w).l.isSSL = true := by
  have h1 : (nextMessageID l).1.isSSL = true := by rw [nextMessageID_isSSL, hssl]
  unfold startTLS
  simp only [h1, if_true]
  exact ⟨trivial, trivial, nextMessageID_conn l, trivial⟩

/-- C4 on a connection opened by `DialSSL`. -/
theorem startTLS_already_encrypted_witness :
    ({ plainConn with isSSL := true } : Conn).isSSL = true ∧
    (startTLS (scriptedEnv 9 1 0 "") { plainConn with isSSL := true } emptyWorld).out
        = Outcome.returned (some (NewError 200 (GoError.text "Already encrypted"))) ∧
    (startTLS (scriptedEnv 9 1 0 "") { plainConn with isSSL := true } emptyWorld).w.net = [] :=
  ⟨rfl,
   (startTLS_already_encrypted (scriptedEnv 9 1 0 "") { plainConn with isSSL := true }
      emptyWorld rfl).1,
   congrArg World.net (startTLS_already_encrypted (scriptedEnv 9 1 0 "")
      { plainConn with isSSL := true } emptyWorld rfl).2.1⟩

/-! ## C9: Close -/

theorem Close_of_closed (l : Conn) (w : World) (h : l.isClosed = true) :
    Close l w = (l, w) := by
  simp [Close, h]

theorem Close_of_open (l : Conn) (w : World) (h : l.isClosed = false) :
    Close l w
      = ({ l with isClosed := true }, { w with net := w.net ++ [NetEvent.close l.conn] }) := by
  simp [Close, h]

theorem Close_isClosed (l : Conn) (w : World) : (Close l w).1.isClosed = true := by
  cases h : l.isClosed
  · rw [Close_of_open l w h]
  · rw [Close_of_closed l w h]; exact h

theorem Close_state (l : Conn) (w : World) : (Close l w).1 = { l with isClosed := true } := by
  cases h : l.isClosed
  · rw [Close_of_open l w h]
  · rw [Close_of_closed l w h]
    cases l
    simp only [Conn.mk.injEq, true_and, and_true]
    exact h

theorem closeCount_append_close (t : List NetEvent) (c : NetConn) :
    closeCount (t ++ [NetEvent.close c]) = closeCount t + 1 := by
  induction t with
  | nil => rfl
  | cons e rest ih =>
    cases e <;> simp [closeCount, ih]

theorem closeTimes_of_closed (k : Nat) : ∀ (l : Conn) (w : World),
    l.isClosed = true → closeTimes k l w = (l, w) := by
  induction k with
  | zero => intro l w _; rfl
  | succ k ih =>
    intro l w h
    simp only [closeTimes, Close_of_closed l w h]
    exact ih l w h

theorem closeTimes_succ (k : Nat) (l : Conn) (w : World) :
    closeTimes (k + 1) l w = Close l w := by
  simp only [closeTimes]
  exact closeTimes_of_closed k _ _ (Close_isClosed l w)

/-- C9, as stated, fails on a connection that is already closed: two `Close`
calls do not invoke the transport's `Close` at all. -/
theorem Close_twice_on_closed_invokes_none :
    ¬ (∀ (l : Conn) (w : World),
        closeCount (closeTimes 2 l w).2.net = closeCount w.net + 1) := by
  intro h
  have h0 := h { plainConn with isClosed := true } emptyWorld
  revert h0
  decide

/-- C9, amended: for every connection and every `k ≥ 1`, `k` calls of `Close`
leave the same connection and world as one call, namely the connection with
`isClosed = true` and every other field unchanged; the transport's `Close` is
invoked exactly once when the connection was open and not at all when it was
already closed. -/
theorem Close_idempotent (l : Conn) (w : World) (k : Nat) (hk : 1 ≤ k) :
    closeTimes k l w = Close l w
      ∧ (Close l w).1 = { l with isClosed := true }
      ∧ (l.isClosed = false →
          closeCount (closeTimes k l w).2.net = closeCount w.net + 1)
      ∧ (l.isClosed = true → (closeTimes k l w).2 = w) := by
  obtain ⟨j, rfl⟩ : ∃ j, k = j + 1 := ⟨k - 1, by omega⟩
  rw [closeTimes_succ]
  refine ⟨rfl, Close_state l w, ?_, ?_⟩
  · intro h
    rw [Close_of_open l w h]
    exact closeCount_append_close w.net l.conn
  · intro h
    rw [Close_of_closed l w h]

/-- C9 amended, at two calls on a fresh connection. -/
theorem Close_idempotent_witness :
    (1 : Nat) ≤ 2 ∧ closeTimes 2 plainConn emptyWorld = Close plainConn emptyWorld ∧
      closeCount (closeTimes 2 plainConn emptyWorld).2.net = 1 :=
  ⟨by decide, (Close_idempotent plainConn emptyWorld 2 (by decide)).1,
   (Close_idempotent plainConn emptyWorld 2 (by decide)).2.2.1 rfl⟩

/-! ## C5: send flushes the whole message -/

theorem sendLoop_nil (env : Env) (l : Conn) (fuel : Nat) (w : World) :
    sendLoop env l fuel w [] = (w, Outcome.returned GoError.nil) := by
  unfold sendLoop
  simp

/-- With a transport that never fails and accepts between one and all of
the bytes offered, the loop of `send` ends with `nil` as soon as the fuel
covers the length of the buffer, and the calls it made flush the buffer. -/
theorem sendLoop_flushes (env : Env) (l : Conn)
    (hW : ∀ (hist : List NetEvent) (buf : List Nat), buf ≠ [] →
      (env.Write hist l.conn buf).2 = GoError.nil ∧ 1 ≤ (env.Write hist l.conn buf).1 ∧
        (env.Write hist l.conn buf).1 ≤ (buf.length : Int)) :
    ∀ (fuel : Nat) (w : World) (buf : List Nat), buf.length ≤ fuel →
      ∃ evs : List NetEvent,
        sendLoop env l fuel w buf
            = ({ w with net := w.net ++ evs }, Outcome.returned GoError.nil)
          ∧ accepted evs = buf ∧ flushes l.conn buf evs := by
  intro fuel
  induction fuel with
  | zero =>
    intro w buf hlen
    have hb : buf = [] := List.length_eq_zero.mp (by omega)
    subst hb
    exact ⟨[], by rw [sendLoop_nil]; simp, rfl, rfl⟩
  | succ fuel ih =>
    intro w buf hlen
    by_cases hb : buf = []
    · subst hb
      exact ⟨[], by rw [sendLoop_nil]; simp, rfl, rfl⟩
    · have hpos : 0 < buf.length := List.length_pos.mpr hb
      obtain ⟨herr, h1, h2⟩ := hW w.net buf hb
      generalize hn : (env.Write w.net l.conn buf).1 = n at h1 h2
      by_cases hfull : n = (buf.length : Int)
      · refine ⟨[NetEvent.write l.conn buf n GoError.nil], ?_, ?_, ?_⟩
        · unfold sendLoop
          simp [connWrite, hpos, herr, hn, hfull, GoError.isNil]
        · simp [accepted, hfull]
        · simp [flushes, hfull]
          omega
      · have hlt : n < (buf.length : Int) := lt_of_le_of_ne h2 hfull
        have hdrop : (buf.drop n.toNat).length ≤ fuel := by
          rw [List.length_drop]
          omega
        obtain ⟨evs, hrun, hacc, hfl⟩ := ih
          { w with net := w.net ++ [NetEvent.write l.conn buf n GoError.nil] }
          (buf.drop n.toNat) hdrop
        refine ⟨NetEvent.write l.conn buf n GoError.nil :: evs, ?_, ?_, ?_⟩
        · unfold sendLoop
          have hng : ¬ (n < 0 ∨ (buf.length : Int) < n) := by omega
          simp only [connWrite, hpos, herr, hn, hfull, hng, GoError.isNil, if_true, if_false,
            Bool.not_true, Bool.false_eq_true]
          rw [hrun]
          simp
        · simp [accepted, hacc]
        · exact ⟨rfl, rfl, rfl, h1, h2, hfl⟩

/-- C5: for every message and every transport whose `Write` never returns an
error and accepts at least one and at most all of the bytes offered, `send`
returns `nil` once the fuel covers the length of `message.Bytes()`; the calls
it made are `Write` calls that each offer exactly the bytes not yet accepted,
and the accepted bytes, concatenated in call order, are `message.Bytes()`. -/
theorem send_flushes_message (env : Env) (fuel : Nat) (l : Conn) (w : World) (message : Packet)
    (hW : ∀ (hist : List NetEvent) (buf : List Nat), buf ≠ [] →
      (env.Write hist l.conn buf).2 = GoError.nil ∧ 1 ≤ (env.Write hist l.conn buf).1 ∧
        (env.Write hist l.conn buf).1 ≤ (buf.length : Int))
    (hfuel : (env.Bytes message).length ≤ fuel) :
    ∃ evs : List NetEvent,
      send env fuel l w message
          = ({ w with net := w.net ++ evs }, Outcome.returned GoError.nil)
        ∧ accepted evs = env.Bytes message
        ∧ flushes l.conn (env.Bytes message) evs :=
  sendLoop_flushes env l hW fuel w (env.Bytes message) hfuel

/-- C5 against a peer that takes two bytes per call: three `Write` calls
flush the five bytes of the message. -/
theorem send_flushes_message_witness :
    ∃ evs : List NetEvent,
      send (scriptedEnv 2 1 0 "") 5 plainConn emptyWorld (bindRequestPacket 1 "u" "p")
          = ({ emptyWorld with net := emptyWorld.net ++ evs }, Outcome.returned GoError.nil)
        ∧ accepted evs = [48, 12, 2, 1, 2]
        ∧ flushes plainConn.conn [48, 12, 2, 1, 2] evs :=
  send_flushes_message (scriptedEnv 2 1 0 "") 5 plainConn emptyWorld
    (bindRequestPacket 1 "u" "p")
    (fun _ buf hb => by
      have hpos : 0 < buf.length := List.length_pos.mpr hb
      refine ⟨rfl, ?_, ?_⟩
      · simp only [scriptedEnv]
        omega
      · simp only [scriptedEnv]
        omega)
    (by decide)

/-! ## C2 and C3: the response of Bind -/

/-- The loop of `send` consults the environment only through `Write`. -/
theorem sendLoop_env_congr (env env1 : Env) (l : Conn) (hWrite : env1.Write = env.Write) :
    ∀ (fuel : Nat) (w : World) (buf : List Nat),
      sendLoop env1 l fuel w buf = sendLoop env l fuel w buf := by
  intro fuel
  induction fuel with
  | zero =>
    intro w buf
    unfold sendLoop
    rfl
  | succ fuel ih =>
    intro w buf
    unfold sendLoop
    simp only [connWrite, hWrite, ih]

/-- C2: when the request was sent and a response was read without transport
error, and the id of the response differs from the id placed in the request,
`Bind` returns an `Error` of kind `ErrorNetwork`; this holds with any
functions `a` and `g` in place of `addLDAPDescriptions` and
`getLDAPResultCode`, so neither is consulted. -/
theorem Bind_id_mismatch (env : Env) (fuel : Nat) (l : Conn) (w w2 w3 : World)
    (username password : String) (response_id : Nat) (response_body : Option Packet)
    (a : Option Packet → Option Packet × GoError) (g : Packet → Nat × String)
    (hsend : send env fuel (nextMessageID l).1
        (if l.Debug then
          PrintPacket w (some (bindRequestPacket (nextMessageID l).2 username password))
         else w)
        (bindRequestPacket (nextMessageID l).2 username password)
      = (w2, Outcome.returned GoError.nil))
    (hread : read env (nextMessageID l).1 w2
      = (w3, Outcome.returned (response_id, response_body, GoError.nil)))
    (hne : (nextMessageID l).2 ≠ response_id) :
    (Bind { env with addLDAPDescriptions := a, getLDAPResultCode := g } fuel l w
        username password).out
      = Outcome.returned (some (NewError env.ErrorNetwork
          (GoError.text "message id is not excepted.")))
    ∧ (Bind { env with addLDAPDescriptions := a, getLDAPResultCode := g } fuel l w
        username password).w = w3 := by
  have hsend1 : send { env with addLDAPDescriptions := a, getLDAPResultCode := g } fuel
      (nextMessageID l).1
      (if (nextMessageID l).1.Debug then
          PrintPacket w (some (bindRequestPacket (nextMessageID l).2 username password))
        else w)
      (bindRequestPacket (nextMessageID l).2 username password)
      = (w2, Outcome.returned GoError.nil) := by
    rw [nextMessageID_Debug, ← hsend]
    simp only [send]
    exact sendLoop_env_congr env { env with addLDAPDescriptions := a, getLDAPResultCode := g }
      _ rfl _ _ _
  have hread1 : read { env with addLDAPDescriptions := a, getLDAPResultCode := g }
      (nextMessageID l).1 w2
      = (w3, Outcome.returned (response_id, response_body, GoError.nil)) := hread
  unfold Bind
  simp only [hsend1, hread1, GoError.isNil]
  simp [hne]

/-- C2 against a peer that answers the first request (id 1) with a response
numbered 7 whose body reports success. -/
theorem Bind_id_mismatch_witness :
    (1 : Nat) ≠ 7 ∧
    (Bind (scriptedEnv 9 7 0 "") 5 plainConn emptyWorld "uid=admin,ou=system" "secret").out
      = Outcome.returned (some (NewError 200 (GoError.text "message id is not excepted."))) :=
  ⟨by decide,
   (Bind_id_mismatch (scriptedEnv 9 7 0 "") 5 plainConn emptyWorld
      { net := [NetEvent.write plainConn.conn [48, 12, 2, 1, 2] 5 GoError.nil], stdout := [] }
      { net := [NetEvent.write plainConn.conn [48, 12, 2, 1, 2] 5 GoError.nil,
                NetEvent.readPacket plainConn.conn], stdout := [] }
      "uid=admin,ou=system" "secret" 7 (some (responsePacket 7 0 ""))
      (scriptedEnv 9 7 0 "").addLDAPDescriptions (scriptedEnv 9 7 0 "").getLDAPResultCode
      rfl rfl (by decide)).1⟩

/-- A read that reports no error delivered a packet. -/
theorem read_nil_err_some (env : Env) (l : Conn) (w w3 : World) (id : Nat)
    (body : Option Packet)
    (h : read env l w = (w3, Outcome.returned (id, body, GoError.nil))) :
    ∃ b, body = some b := by
  unfold read at h
  simp only at h
  split at h
  · rename_i hnil
    simp only [Prod.mk.injEq, Outcome.returned.injEq] at h
    rw [h.2.2.2] at hnil
    simp [GoError.isNil] at hnil
  · split at h
    · simp at h
    · rename_i id1 hv
      simp only [Prod.mk.injEq, Outcome.returned.injEq] at h
      rw [h.2.2.1] at hv
      cases body with
      | none => simp [childAt, valueUint64] at hv
      | some b => exact ⟨b, rfl⟩

/-- C3: with Debug off, when the request was sent, the response was read and
its id equals the id of the request, `Bind` returns nil exactly when the
result code extracted from the response body is 0, and for a nonzero code it
returns the `Error` carrying that code and the description extracted from the
same body. -/
theorem Bind_result_code (env : Env) (fuel : Nat) (l : Conn) (w w2 w3 : World)
    (username password : String) (body : Packet)
    (hdebug : l.Debug = false)
    (hsend : send env fuel (nextMessageID l).1 w
        (bindRequestPacket (nextMessageID l).2 username password)
      = (w2, Outcome.returned GoError.nil))
    (hread : read env (nextMessageID l).1 w2
      = (w3, Outcome.returned ((nextMessageID l).2, some body, GoError.nil))) :
    ((Bind env fuel l w username password).out = Outcome.returned none
        ↔ (env.getLDAPResultCode body).1 = 0)
    ∧ ((env.getLDAPResultCode body).1 ≠ 0 →
        (Bind env fuel l w username password).out
          = Outcome.returned (some (NewError (env.getLDAPResultCode body).1
              (GoError.text (env.getLDAPResultCode body).2)))) := by
  have hd : (nextMessageID l).1.Debug = false := by rw [nextMessageID_Debug, hdebug]
  have hsend1 : send env fuel (nextMessageID l).1
      (if (nextMessageID l).1.Debug then
          PrintPacket w (some (bindRequestPacket (nextMessageID l).2 username password))
        else w)
      (bindRequestPacket (nextMessageID l).2 username password)
      = (w2, Outcome.returned GoError.nil) := by
    simp only [hd, Bool.false_eq_true, if_false]
    exact hsend
  unfold Bind
  simp only [hsend1, hread, GoError.isNil]
  by_cases hc : (env.getLDAPResultCode body).1 = 0
  · simp [hd, hc]
  · simp [hd, hc]

/-- C3 against a server that rejects the credentials with code 49. -/
theorem Bind_result_code_witness :
    (Bind (scriptedEnv 9 1 49 "INVALID_CREDENTIALS") 5 plainConn emptyWorld
        "uid=admin,ou=system" "wrong").out
      = Outcome.returned (some (NewError 49 (GoError.text "INVALID_CREDENTIALS"))) :=
  (Bind_result_code (scriptedEnv 9 1 49 "INVALID_CREDENTIALS") 5 plainConn emptyWorld
      { net := [NetEvent.write plainConn.conn [48, 12, 2, 1, 2] 5 GoError.nil], stdout := [] }
      { net := [NetEvent.write plainConn.conn [48, 12, 2, 1, 2] 5 GoError.nil,
                NetEvent.readPacket plainConn.conn], stdout := [] }
      "uid=admin,ou=system" "wrong" (responsePacket 1 49 "INVALID_CREDENTIALS")
      rfl rfl rfl).2 (by decide)

/-! ## C7: startTLS on a plain connection -/

/-- C7: on an unencrypted connection with Debug off, when the single `Write`
of the request reports no error and `ber.ReadPacket` delivers a response
`p` without error, and the first child of the second child of `p` holds the
unsigned integer `code`, `startTLS` returns no error and has made exactly
that write and that read; for code 0 it sets `isSSL` and replaces the
transport by `tls.Client` over the previous one, for a nonzero code it leaves
`isSSL` false and the transport as it was.  Nothing is assumed about the
first child of `p`: its message id is not compared with the id of the
request. -/
theorem startTLS_result (env : Env) (l : Conn) (w : World) (p body node : Packet)
    (code : Nat)
    (hssl : l.isSSL = false) (hdebug : l.Debug = false)
    (hwrite : (env.Write w.net l.conn
        (env.Bytes (startTLSRequestPacket (nextMessageID l).2))).2 = GoError.nil)
    (hread : env.ReadPacket
        (w.net ++ [NetEvent.write l.conn (env.Bytes (startTLSRequestPacket (nextMessageID l).2))
          (env.Write w.net l.conn (env.Bytes (startTLSRequestPacket (nextMessageID l).2))).1
          GoError.nil]) l.conn
      = (some p, GoError.nil))
    (hbody : p.Children.get? 1 = some body)
    (hnode : body.Children.get? 0 = some node)
    (hval : node.Value = BerValue.uint64 code) :
    (startTLS env l w).out = Outcome.returned none
    ∧ (startTLS env l w).w.net
        = w.net ++ [NetEvent.write l.conn (env.Bytes (startTLSRequestPacket (nextMessageID l).2))
            (env.Write w.net l.conn (env.Bytes (startTLSRequestPacket (nextMessageID l).2))).1
            GoError.nil,
          NetEvent.readPacket l.conn]
    ∧ (code = 0 → (startTLS env l w).l.isSSL = true
        ∧ (startTLS env l w).l.conn = NetConn.tlsClient l.conn)
    ∧ (code ≠ 0 → (startTLS env l w).l.isSSL = false
        ∧ (startTLS env l w).l.conn = l.conn) := by
  have h1 : (nextMessageID l).1.isSSL = false := by rw [nextMessageID_isSSL, hssl]
  have h2 : (nextMessageID l).1.Debug = false := by rw [nextMessageID_Debug, hdebug]
  have h3 : (nextMessageID l).1.conn = l.conn := rfl
  have hw1 : (connWrite env l.conn w
      (env.Bytes (startTLSRequestPacket (nextMessageID l).2))).2.2 = GoError.nil := hwrite
  have hw2 : (connWrite env l.conn w
      (env.Bytes (startTLSRequestPacket (nextMessageID l).2))).1
      = { w with net := w.net ++ [NetEvent.write l.conn
            (env.Bytes (startTLSRequestPacket (nextMessageID l).2))
            (env.Write w.net l.conn (env.Bytes (startTLSRequestPacket (nextMessageID l).2))).1
            GoError.nil] } := by
    simp only [connWrite, hwrite]
  have hr0 : connReadPacket env l.conn
      { w with net := w.net ++ [NetEvent.write l.conn
            (env.Bytes (startTLSRequestPacket (nextMessageID l).2))
            (env.Write w.net l.conn (env.Bytes (startTLSRequestPacket (nextMessageID l).2))).1
            GoError.nil] }
      = ({ w with net := (w.net ++ [NetEvent.write l.conn
            (env.Bytes (startTLSRequestPacket (nextMessageID l).2))
            (env.Write w.net l.conn (env.Bytes (startTLSRequestPacket (nextMessageID l).2))).1
            GoError.nil]) ++ [NetEvent.readPacket l.conn] }, some p, GoError.nil) := by
    simp only [connReadPacket, hread]
  have hcode : extendedResultCode (some p) = some code := by
    simp only [extendedResultCode, childAt, hbody, hnode, valueUint64, hval]
  unfold startTLS
  simp only [h1, h2, h3, hw1, hw2, hr0, hcode, GoError.isNil, Bool.false_eq_true, if_false,
    Bool.not_true]
  by_cases hc : code = 0
  · simp [hc]
  · simp only [hc, if_false]
    refine ⟨trivial, ?_, fun hf => hf.elim, fun _ => ⟨h1, h3⟩⟩
    simp

/-- C7 against a server that answers the StartTLS request (id 1) in a
response numbered 5: with code 0 the connection is upgraded, with code 53
(unwilling to perform) it stays plain, and both calls return nil. -/
theorem startTLS_result_witness :
    ((startTLS (scriptedEnv 9 5 0 "") plainConn emptyWorld).out = Outcome.returned none
      ∧ (startTLS (scriptedEnv 9 5 0 "") plainConn emptyWorld).l.isSSL = true
      ∧ (startTLS (scriptedEnv 9 5 0 "") plainConn emptyWorld).l.conn
          = NetConn.tlsClient plainConn.conn)
    ∧ ((startTLS (scriptedEnv 9 5 53 "") plainConn emptyWorld).out = Outcome.returned none
      ∧ (startTLS (scriptedEnv 9 5 53 "") plainConn emptyWorld).l.isSSL = false
      ∧ (startTLS (scriptedEnv 9 5 53 "") plainConn emptyWorld).l.conn = plainConn.conn) :=
  ⟨⟨(startTLS_result (scriptedEnv 9 5 0 "") plainConn emptyWorld (responsePacket 5 0 "")
        (Packet.mk ClassApplication TypeConstructed 1 BerValue.nil
          [ NewInteger ClassUniversal TypePrimative 10 0 "",
            NewString ClassUniversal TypePrimative TagOctetString "" "",
            NewString ClassUniversal TypePrimative TagOctetString "" "" ] "")
        (NewInteger ClassUniversal TypePrimative 10 0 "") 0 rfl rfl rfl rfl rfl rfl rfl).1,
     (startTLS_result (scriptedEnv 9 5 0 "") plainConn emptyWorld (responsePacket 5 0 "")
        (Packet.mk ClassApplication TypeConstructed 1 BerValue.nil
          [ NewInteger ClassUniversal TypePrimative 10 0 "",
            NewString ClassUniversal TypePrimative TagOctetString "" "",
            NewString ClassUniversal TypePrimative TagOctetString "" "" ] "")
        (NewInteger ClassUniversal TypePrimative 10 0 "") 0 rfl rfl rfl rfl rfl rfl
        rfl).2.2.1 rfl⟩,
   ⟨(startTLS_result (scriptedEnv 9 5 53 "") plainConn emptyWorld (responsePacket 5 53 "")
        (Packet.mk ClassApplication TypeConstructed 1 BerValue.nil
          [ NewInteger ClassUniversal TypePrimative 10 53 "",
            NewString ClassUniversal TypePrimative TagOctetString "" "",
            NewString ClassUniversal TypePrimative TagOctetString "" "" ] "")
        (NewInteger ClassUniversal TypePrimative 10 53 "") 53 rfl rfl rfl rfl rfl rfl rfl).1,
     (startTLS_result (scriptedEnv 9 5 53 "") plainConn emptyWorld (responsePacket 5 53 "")
        (Packet.mk ClassApplication TypeConstructed 1 BerValue.nil
          [ NewInteger ClassUniversal TypePrimative 10 53 "",
            NewString ClassUniversal TypePrimative TagOctetString "" "",
            NewString ClassUniversal TypePrimative TagOctetString "" "" ] "")
        (NewInteger ClassUniversal TypePrimative 10 53 "") 53 rfl rfl rfl rfl rfl rfl
        rfl).2.2.2 (by decide)⟩⟩

/-! ## C6: DialTLS -/

/-- A `*Error` stored in a variable of type `error` never compares equal to
`nil`, not even when the pointer is nil. -/
theorem toErrorInterface_not_nil (e : Option Error) : (toErrorInterface e).isNil = false := by
  cases e <;> rfl

/-- `DialTLS` has no run that returns a connection: whenever `startTLS`
returns, with or without error, the test `err != nil` succeeds. -/
theorem DialTLS_never_returns_conn (env : Env) (w : World) (network addr : String)
    (c : Conn) (e : Option Error) :
    (DialTLS env w network addr).out ≠ Outcome.returned (some c, e) := by
  unfold DialTLS
  simp only
  split
  · simp
  · split
    · simp
    · simp
    · simp [toErrorInterface_not_nil]

/-- C6 at a server that answers the StartTLS request with result code 0:
`startTLS` returns nil and has installed the TLS wrapper, yet `DialTLS`
closes the connection and returns no connection and an `ErrorNetwork` error
whose cause is the nil `*Error`. -/
theorem DialTLS_fails_after_successful_startTLS :
    (startTLS (scriptedEnv 9 1 0 "") (newConn (NetConn.tcp "tcp" "ldap.example.org:389"))
        { net := [NetEvent.dial "tcp" "ldap.example.org:389"], stdout := [] }).out
      = Outcome.returned none
    ∧ (DialTLS (scriptedEnv 9 1 0 "") emptyWorld "tcp" "ldap.example.org:389").out
      = Outcome.returned (none, some (NewError 200 GoError.typedNil))
    ∧ (DialTLS (scriptedEnv 9 1 0 "") emptyWorld "tcp" "ldap.example.org:389").w.net
      = [ NetEvent.dial "tcp" "ldap.example.org:389",
          NetEvent.write (NetConn.tcp "tcp" "ldap.example.org:389") [48, 12, 2, 1, 2] 5
            GoError.nil,
          NetEvent.readPacket (NetConn.tcp "tcp" "ldap.example.org:389"),
          NetEvent.close (NetConn.tlsClient (NetConn.tcp "tcp" "ldap.example.org:389")) ]
    ∧ (DialTLS (scriptedEnv 9 1 0 "") emptyWorld "tcp" "ldap.example.org:389").built
      = some { isClosed := true, next_message_id := 1,
               conn := NetConn.tlsClient (NetConn.tcp "tcp" "ldap.example.org:389"),
               isSSL := true, Debug := false } :=
  ⟨rfl, rfl, rfl, rfl⟩

/-! ## C10: operations on a closed connection -/

/-- The loop of `send` reads only the transport handle and the Debug flag
of the connection. -/
theorem sendLoop_conn_congr (env : Env) (l l1 : Conn) (hconn : l1.conn = l.conn)
    (hdebug : l1.Debug = l.Debug) :
    ∀ (fuel : Nat) (w : World) (buf : List Nat),
      sendLoop env l1 fuel w buf = sendLoop env l fuel w buf := by
  intro fuel
  induction fuel with
  | zero =>
    intro w buf
    unfold sendLoop
    rfl
  | succ fuel ih =>
    intro w buf
    unfold sendLoop
    simp only [hconn, hdebug, ih]

/-- `Bind` never reads the `isClosed` flag: the calls it makes and what it
returns are the same for either value of the flag. -/
theorem Bind_ignores_isClosed (env : Env) (fuel : Nat) (l : Conn) (w : World)
    (username password : String) (b : Bool) :
    (Bind env fuel { l with isClosed := b } w username password).w
        = (Bind env fuel l w username password).w
    ∧ (Bind env fuel { l with isClosed := b } w username password).out
        = (Bind env fuel l w username password).out := by
  have hs : ∀ w1 m, send env fuel (nextMessageID { l with isClosed := b }).1 w1 m
      = send env fuel (nextMessageID l).1 w1 m := by
    intro w1 m
    exact sendLoop_conn_congr env (nextMessageID l).1
      (nextMessageID { l with isClosed := b }).1 rfl rfl fuel w1 (env.Bytes m)
  have hr : ∀ w1, read env (nextMessageID { l with isClosed := b }).1 w1
      = read env (nextMessageID l).1 w1 := fun _ => rfl
  have hd : (nextMessageID { l with isClosed := b }).1.Debug = (nextMessageID l).1.Debug := rfl
  have hi : (nextMessageID { l with isClosed := b }).2 = (nextMessageID l).2 := rfl
  unfold Bind
  simp only [hs, hr, hd, hi]
  constructor <;> (repeat' split) <;> simp_all

/-- `startTLS` never reads the `isClosed` flag. -/
theorem startTLS_ignores_isClosed (env : Env) (l : Conn) (w : World) (b : Bool) :
    (startTLS env { l with isClosed := b } w).w = (startTLS env l w).w
    ∧ (startTLS env { l with isClosed := b } w).out = (startTLS env l w).out := by
  have hc : (nextMessageID { l with isClosed := b }).1.conn = (nextMessageID l).1.conn := rfl
  have hd : (nextMessageID { l with isClosed := b }).1.Debug = (nextMessageID l).1.Debug := rfl
  have hs : (nextMessageID { l with isClosed := b }).1.isSSL = (nextMessageID l).1.isSSL := rfl
  have hi : (nextMessageID { l with isClosed := b }).2 = (nextMessageID l).2 := rfl
  unfold startTLS
  simp only [hc, hd, hs, hi]
  constructor <;> (repeat' split) <;> simp_all

/-- C10, as stated, fails: on a closed connection `Bind` still offers its
request to the transport's `Write` and then reads from the transport. -/
theorem closed_conn_Bind_still_writes :
    ¬ (∀ (env : Env) (fuel : Nat) (l : Conn) (w : World) (username password : String),
        l.isClosed = true →
          (Close l w).2.net = w.net
          ∧ (Bind env fuel l w username password).w.net = w.net
          ∧ (startTLS env l w).w.net = w.net) := by
  intro h
  have h0 := (h (scriptedEnv 9 1 0 "") 5 { plainConn with isClosed := true } emptyWorld
    "uid=admin,ou=system" "secret" rfl).2.1
  have h1 : (Bind (scriptedEnv 9 1 0 "") 5 { plainConn with isClosed := true } emptyWorld
      "uid=admin,ou=system" "secret").w.net
      = [NetEvent.write plainConn.conn [48, 12, 2, 1, 2] 5 GoError.nil,
         NetEvent.readPacket plainConn.conn] := rfl
  rw [h1] at h0
  exact List.noConfusion h0

/-- C10, amended: on a connection whose `isClosed` flag is set, `Close` makes
no transport call and changes nothing; `Bind` and `startTLS` do not consult
the flag, so they make the same transport calls and return the same result as
on the same connection with the flag cleared. -/
theorem closed_conn_operations (env : Env) (fuel : Nat) (l : Conn) (w : World)
    (username password : String) (hclosed : l.isClosed = true) :
    Close l w = (l, w)
    ∧ (Bind env fuel l w username password).w
        = (Bind env fuel { l with isClosed := false } w username password).w
    ∧ (Bind env fuel l w username password).out
        = (Bind env fuel { l with isClosed := false } w username password).out
    ∧ (startTLS env l w).w = (startTLS env { l with isClosed := false } w).w
    ∧ (startTLS env l w).out = (startTLS env { l with isClosed := false } w).out :=
  ⟨Close_of_closed l w hclosed,
   (Bind_ignores_isClosed env fuel l w username password false).1.symm,
   (Bind_ignores_isClosed env fuel l w username password false).2.symm,
   (startTLS_ignores_isClosed env l w false).1.symm,
   (startTLS_ignores_isClosed env l w false).2.symm⟩

/-- C10 amended, on a closed connection to the test server. -/
theorem closed_conn_operations_witness :
    ({ plainConn with isClosed := true } : Conn).isClosed = true
    ∧ Close { plainConn with isClosed := true } emptyWorld
        = ({ plainConn with isClosed := true }, emptyWorld)
    ∧ (Bind (scriptedEnv 9 1 0 "") 5 { plainConn with isClosed := true } emptyWorld
          "uid=admin,ou=system" "secret").w
        = (Bind (scriptedEnv 9 1 0 "") 5 { plainConn with isClosed := false } emptyWorld
          "uid=admin,ou=system" "secret").w :=
  ⟨rfl,
   (closed_conn_operations (scriptedEnv 9 1 0 "") 5 { plainConn with isClosed := true }
      emptyWorld "uid=admin,ou=system" "secret" rfl).1,
   (closed_conn_operations (scriptedEnv 9 1 0 "") 5 { plainConn with isClosed := true }
      emptyWorld "uid=admin,ou=system" "secret" rfl).2.1⟩

end Ldap

